import Mathlib

/-!
Verification development for the JuliaOS bridge
(src/packages/core/src/bridge/JuliaBridge.ts).

The definitions below shallowly embed the bridge state machine of the
`JuliaBridge` class: its instance fields become a `BridgeState` record,
each event handler or method becomes a pure function from state (plus the
external inputs the handler reads, such as the current time, a freshly
generated uuid, or the outcome of a write) to a new state together with a
list of externally observable `BridgeEffect`s.  Promise continuations are
identified by their request/command id, so resolving or rejecting a caller
is recorded as an effect keyed by that id rather than as a function call.
Numbers that the bridge only compares or multiplies are modelled as `Nat`
or `Rat`; payloads, which the bridge treats as uninterpreted JSON, are modelled
by their serialized `String` form.
-/

/-- JavaScript errors thrown or used for promise rejection by the bridge:
either a plain `Error(message)` or a `JuliaBridgeError(message, code)`. -/
inductive JsError where
  | plain (message : String)
  | bridge (message : String) (code : String)
deriving Repr, DecidableEq

/-- The `message` property of a JavaScript error. -/
def JsError.msg : JsError → String
  | .plain m => m
  | .bridge m _ => m

/-- Mirrors the `JuliaBridgeOptions` interface.  Every field is optional on
the TypeScript side; the constructor fills concrete defaults but every use
site re-applies a `||` fallback, which `orDefaultNat` models. -/
structure JuliaBridgeOptions where
  debug : Bool
  timeout : Option Nat
  maxRetries : Option Nat
  reconnectInterval : Option Nat
  artificialDelay : Option Nat
  heartbeatInterval : Option Nat
  heartbeatTimeout : Option Nat
  maxQueueSize : Option Nat
  backoffMultiplier : Option Rat
deriving Repr, DecidableEq

/-- JavaScript `x || d` on an optional number: `undefined` and `0` both
fall back to the default. -/
def orDefaultNat (v : Option Nat) (d : Nat) : Nat :=
  match v with
  | some n => if n = 0 then d else n
  | none => d

/-- JavaScript `x || d` on an optional rational (used for the backoff
multiplier). -/
def orDefaultRat (v : Option Rat) (d : Rat) : Rat :=
  match v with
  | some r => if r = 0 then d else r
  | none => d

/-- The option record built by the `JuliaBridge` constructor when the
caller passes no overrides (lines 197-210 of the source). -/
def defaultOptions : JuliaBridgeOptions :=
  { debug := false
    timeout := some 30000
    maxRetries := some 3
    reconnectInterval := some 5000
    artificialDelay := some 0
    heartbeatInterval := some 30000
    heartbeatTimeout := some 10000
    maxQueueSize := some 1000
    backoffMultiplier := some (3 / 2) }

/-- The `pso | aco | abc | firefly` algorithm tag of `SwarmConfig`. -/
inductive SwarmAlgorithm where
  | pso
  | aco
  | abc
  | firefly
deriving Repr, DecidableEq

/-- The `parameters` field of `SwarmConfig` (risk limits; the bridge never
computes with them, so exact rationals stand in for JS numbers). -/
structure SwarmParameters where
  maxPositionSize : Rat
  stopLoss : Rat
  takeProfit : Rat
  maxDrawdown : Rat
deriving Repr, DecidableEq

/-- Mirrors the `SwarmConfig` interface (the optional PSO weights are
omitted: nothing in the bridge reads them). -/
structure SwarmConfig where
  id : Option String
  name : Option String
  size : Nat
  algorithm : SwarmAlgorithm
  parameters : SwarmParameters
deriving Repr, DecidableEq

/-- A parsed wire message (the `JuliaResponse` shape checked by
`MessageSchema`): `id`, `type`, uninterpreted `data` kept in serialized form, and
an optional `error` string.  The unread `metadata` field is omitted. -/
structure JuliaMessage where
  id : String
  type : String
  data : String
  error : Option String
deriving Repr, DecidableEq

/-- An entry of the `messageQueue` field: the serialized message together
with its enqueue timestamp. -/
structure QueuedMessage where
  message : String
  timestamp : Nat
deriving Repr, DecidableEq

/-- Externally observable actions performed by a bridge handler: resolving
or rejecting a caller continuation (keyed by request/command id), timer
management, socket/process writes, event emission and console logging. -/
inductive BridgeEffect where
  | startTimeout (id : String)
  | clearTimeout (id : String)
  | resolveRequest (id : String) (m : JuliaMessage)
  | rejectRequest (id : String) (e : JsError)
  | rejectCommand (id : String) (e : JsError)
  | rejectQueued (message : String) (e : JsError)
  | resendQueued (message : String)
  | sendOnSocket (payload : String)
  | writeToProcess (payload : String)
  | commandSent (command : String) (target : String)
  | emitEvent (evt : String)
  | logLine (line : String)
  | clearHeartbeatTimer
  | startHeartbeatTimer
  | killScheduled
deriving Repr, DecidableEq

/-- The mutable instance fields of the `JuliaBridge` class that the
verified behaviour depends on.  `pendingRequests` and `pendingCommands`
are the two (distinct!) correlation maps of the source, kept as lists of
ids since the stored continuations are externalized into effects;
`activeSwarms` keeps its configs.  `processRunning`, `stdinAvailable` and
`stdinWritable` model `juliaProcess !== null`, `juliaProcess.stdin` and
`juliaProcess.stdin.writable`. -/
structure BridgeState where
  isConnected : Bool
  retryCount : Nat
  messageQueue : List QueuedMessage
  reconnectTimerActive : Bool
  heartbeatTimerActive : Bool
  lastHeartbeat : Nat
  isReconnecting : Bool
  processRunning : Bool
  stdinAvailable : Bool
  stdinWritable : Bool
  pendingRequests : List String
  isInitialized : Bool
  pendingCommands : List String
  activeSwarms : List (String × SwarmConfig)
  reconnectAttempts : Nat
deriving Repr, DecidableEq

/-- `Map.get`-style lookup on an association list (TS `Map` keys are
unique, so taking the first match is faithful). -/
def lookupKey {α : Type} (l : List (String × α)) (k : String) : Option α :=
  (l.find? (fun p => p.1 == k)).map (fun p => p.2)

/-- `Map.delete` on an association list. -/
def deleteKey {α : Type} (l : List (String × α)) (k : String) : List (String × α) :=
  l.filter (fun p => p.1 != k)

/-- `Map.delete` applied to each key of a list in order. -/
def deleteKeys {α : Type} (l : List (String × α)) : List String → List (String × α)
  | [] => l
  | k :: ks => deleteKeys (deleteKey l k) ks

/-- Shared error values used by the bridge. -/
def notInitializedError : JsError :=
  .bridge "Julia bridge is not initialized" "NOT_INITIALIZED"

def bridgeShutdownError : JsError :=
  .bridge "Bridge shutdown" "BRIDGE_SHUTDOWN"

def messageExpiredError : JsError :=
  .plain "Message expired"

def dataTooLargeError : JsError :=
  .bridge "Command data too large" "DATA_TOO_LARGE"

/-- The `ws.on` message handler (lines 519-553): heartbeat-kind messages
only refresh `lastHeartbeat`; otherwise a response whose id matches a
pending request clears its deadline timer, removes the entry and resolves
with the full envelope or rejects with `new Error(message.error)`; a
response with no matching id only re-emits the `message` event. -/
def handleWsMessage (now : Nat) (s : BridgeState) (m : JuliaMessage) :
    BridgeState × List BridgeEffect :=
  if m.type = "heartbeat" then
    ({ s with lastHeartbeat := now }, [])
  else if s.pendingRequests.contains m.id then
    let s1 := { s with pendingRequests := s.pendingRequests.filter (fun x => x != m.id) }
    match m.error with
    | some e =>
        (s1, [.clearTimeout m.id, .rejectRequest m.id (.plain e), .emitEvent "message"])
    | none =>
        (s1, [.clearTimeout m.id, .resolveRequest m.id m, .emitEvent "message"])
  else
    (s, [.emitEvent "message"])

/-- The deadline timer callback registered by `sendCommand` (lines
841-846): if the command is still pending it is removed and its caller is
rejected with the `COMMAND_TIMEOUT` error; otherwise nothing happens. -/
def fireCommandTimeout (s : BridgeState) (commandId command : String) :
    BridgeState × List BridgeEffect :=
  if s.pendingCommands.contains commandId then
    ({ s with pendingCommands := s.pendingCommands.filter (fun x => x != commandId) },
     [.rejectCommand commandId
        (.bridge ("Command timed out: " ++ command) "COMMAND_TIMEOUT")])
  else
    (s, [])

/-- `calculateBackoffDelay` (lines 614-618): configured base delay times
the configured multiplier raised to the current retry count. -/
def calculateBackoffDelay (o : JuliaBridgeOptions) (retryCount : Nat) : Rat :=
  ((orDefaultNat o.reconnectInterval 5000 : Nat) : Rat) *
    orDefaultRat o.backoffMultiplier (3 / 2) ^ retryCount

/-- `scheduleReconnect` (lines 587-609): a no-op while a reconnect is
already pending, otherwise marks the reconnect in progress and schedules a
retry after the backoff delay (returned as the second component). -/
def scheduleReconnect (o : JuliaBridgeOptions) (s : BridgeState) :
    BridgeState × Option Rat :=
  if s.isReconnecting || s.reconnectTimerActive then
    (s, none)
  else
    ({ s with isReconnecting := true, reconnectTimerActive := true },
     some (calculateBackoffDelay o s.retryCount))

/-- `handleDisconnect` (lines 572-582): ignores the event when already
disconnected, otherwise records the disconnection, emits `disconnected`
and schedules a reconnect.  Note: the heartbeat timer is left untouched. -/
def handleDisconnect (o : JuliaBridgeOptions) (s : BridgeState) :
    BridgeState × List BridgeEffect :=
  if s.isConnected = false then
    (s, [])
  else
    let s1 := { s with isConnected := false }
    ((scheduleReconnect o s1).1, [.emitEvent "disconnected"])

/-- `sendHeartbeat` (lines 641-657): does nothing when disconnected;
otherwise sends a heartbeat frame, and if the send throws (modelled by
`sendFails`) falls into `handleDisconnect`. -/
def sendHeartbeat (o : JuliaBridgeOptions) (s : BridgeState) (sendFails : Bool) :
    BridgeState × List BridgeEffect :=
  if s.isConnected = false then
    (s, [])
  else if sendFails then
    let r := handleDisconnect o s
    (r.1, .logLine "Failed to send heartbeat" :: r.2)
  else
    (s, [.sendOnSocket "heartbeat"])

/-- `startHeartbeat` (lines 623-636): clears any previous interval timer,
starts a new one, and sends an initial heartbeat. -/
def startHeartbeat (o : JuliaBridgeOptions) (s : BridgeState) (sendFails : Bool) :
    BridgeState × List BridgeEffect :=
  let s1 := { s with heartbeatTimerActive := true }
  let r := sendHeartbeat o s1 sendFails
  (r.1,
   (if s.heartbeatTimerActive then [BridgeEffect.clearHeartbeatTimer] else [])
     ++ [BridgeEffect.startHeartbeatTimer] ++ r.2)

/-- `handleHeartbeat` (lines 662-664): records the arrival time of the
last heartbeat-kind message and nothing else. -/
def handleHeartbeat (now : Nat) (s : BridgeState) : BridgeState :=
  { s with lastHeartbeat := now }

/-- The predicate `now - item.timestamp > maxQueueAge` used by
`processQueuedMessages` (truncated subtraction agrees with the JS
comparison because a negative difference is also not greater than the
age limit). -/
def queueExpired (o : JuliaBridgeOptions) (now : Nat) (it : QueuedMessage) : Bool :=
  decide (orDefaultNat o.timeout 30000 < now - it.timestamp)

/-- `processQueuedMessages` (lines 716-738): rejects every queued entry
older than the maximum queue age with the message-expired error, empties
the queue, and hands the surviving entries to `sendMessage` in their
original order (modelled as `resendQueued` effects). -/
def processQueuedMessages (o : JuliaBridgeOptions) (now : Nat)
    (q : List QueuedMessage) : List QueuedMessage × List BridgeEffect :=
  ([],
   (q.filter (fun it => queueExpired o now it)).map
       (fun it => BridgeEffect.rejectQueued it.message messageExpiredError)
     ++ (q.filter (fun it => !queueExpired o now it)).map
       (fun it => BridgeEffect.resendQueued it.message))

/-- `sendMessage` (lines 743-799): while disconnected the message is
queued (or rejected when the queue is at capacity); while connected a
fresh request id (supplied by the caller, standing in for `uuidv4()`) is
recorded in `pendingRequests` with a deadline timer and the frame is sent
on the socket. -/
def sendMessage (o : JuliaBridgeOptions) (now : Nat) (s : BridgeState)
    (requestId payload : String) : BridgeState × List BridgeEffect :=
  if s.isConnected = false then
    if orDefaultNat o.maxQueueSize 1000 ≤ s.messageQueue.length then
      (s, [.rejectQueued payload (.plain "Message queue full")])
    else
      ({ s with messageQueue := s.messageQueue ++ [⟨payload, now⟩] }, [])
  else
    ({ s with pendingRequests := requestId :: s.pendingRequests },
     [.startTimeout requestId, .sendOnSocket payload])

/-- The `ws.on` open handler (lines 507-517): marks the connection up,
resets the retry counter, flushes the outbound queue and starts the
heartbeat. -/
def handleOpen (o : JuliaBridgeOptions) (now : Nat) (s : BridgeState)
    (sendFails : Bool) : BridgeState × List BridgeEffect :=
  let s1 := { s with isConnected := true, retryCount := 0 }
  let q := processQueuedMessages o now s1.messageQueue
  let s2 := { s1 with messageQueue := q.1 }
  let r := startHeartbeat o s2 sendFails
  (r.1, .emitEvent "connected" :: q.2 ++ r.2)

/-- `handleReconnect` (lines 1006-1023): the process-level retry path.
Its base delay and multiplier are the fixed fields `reconnectDelay = 1000`
and the literal `2`; the counter is incremented before computing
`1000 * 2 ^ (attempts - 1)`.  Returns the scheduled delay, or `none` once
the maximum of 5 attempts is exhausted. -/
def handleReconnect (s : BridgeState) : BridgeState × Option Nat :=
  if s.reconnectAttempts < 5 then
    ({ s with reconnectAttempts := s.reconnectAttempts + 1 },
     some (1000 * 2 ^ s.reconnectAttempts))
  else
    (s, none)

/-- The state update applied when initialization succeeds (lines 280-281):
the bridge is marked initialized and the process-level retry counter is
reset to zero. -/
def markInitialized (s : BridgeState) : BridgeState :=
  { s with isInitialized := true, reconnectAttempts := 0 }

/-- The guard at the top of `initialize()` (lines 219-222): an already
initialized bridge returns immediately with no side effects.  The spawn
path taken otherwise is summarized as `none` (its success epilogue is
`markInitialized`). -/
def initGuard (s : BridgeState) : Option BridgeState :=
  if s.isInitialized then some s else none

/-- Outcome of a `sendCommand` call: a synchronous throw, an immediate
rejection of the returned promise, or a registered pending command whose
frame was written to the process. -/
inductive SendOutcome where
  | thrown (e : JsError)
  | rejected (e : JsError)
  | pending
deriving Repr, DecidableEq

/-- Result record for `sendCommand`. -/
structure SendCommandResult where
  state : BridgeState
  outcome : SendOutcome
  effects : List BridgeEffect
deriving Repr, DecidableEq

/-- `sendCommand` (lines 832-962).  `commandId` stands in for the
generated `uuidv4()`, `serializedLength` for `JSON.stringify(commandObj)
.length`, and `writeError` for the error argument of the stdin write
callback.  The guard throws `NOT_INITIALIZED`; otherwise a deadline timer
is started and the command registered before the 10 MiB size check, the
writability check and the write itself, each failure path removing the
registration and cancelling the timer before rejecting. -/
def sendCommand (s : BridgeState) (commandId command : String)
    (serializedLength : Nat) (writeError : Option String) : SendCommandResult :=
  if s.isInitialized = false || s.processRunning = false || s.stdinAvailable = false then
    ⟨s, .thrown (.bridge "Julia bridge is not initialized or process not running"
        "NOT_INITIALIZED"), []⟩
  else
    let withPending := { s with pendingCommands := commandId :: s.pendingCommands }
    let removed := { withPending with
      pendingCommands := withPending.pendingCommands.filter (fun x => x != commandId) }
    if 10 * 1024 * 1024 < serializedLength then
      ⟨removed, .rejected dataTooLargeError,
       [.startTimeout commandId, .clearTimeout commandId]⟩
    else if s.stdinWritable = false then
      ⟨removed, .rejected (.bridge "Julia process stdin not writable" "PROCESS_ERROR"),
       [.startTimeout commandId, .clearTimeout commandId]⟩
    else
      match writeError with
      | some msg =>
          ⟨removed, .rejected (.bridge ("Failed to send command: " ++ msg) "WRITE_ERROR"),
           [.startTimeout commandId, .writeToProcess command, .clearTimeout commandId]⟩
      | none =>
          ⟨withPending, .pending,
           [.startTimeout commandId, .writeToProcess command]⟩

/-- Result record for the public facade operations: the new state, the
value returned or error thrown to the caller, and the observable
effects (each command handed to `sendCommand` appears as a
`commandSent` effect). -/
structure OpResult (α : Type) where
  state : BridgeState
  result : Except JsError α
  effects : List BridgeEffect

/-- `createSwarm` (lines 358-379): guard on initialization, generate an id
when the config has none (`genId` stands in for `uuidv4()`), issue
`start_swarm`, and on success register the swarm locally.  Any failure
inside the `try` is re-wrapped as a `SWARM_CREATION_ERROR`. -/
def createSwarm (s : BridgeState) (cfg : SwarmConfig) (genId : String)
    (send : Except JsError String) : OpResult String :=
  if s.isInitialized = false then
    ⟨s, .error notInitializedError, []⟩
  else
    let swarmId := cfg.id.getD genId
    match send with
    | .error e =>
        ⟨s, .error (.bridge ("Failed to create swarm: " ++ e.msg) "SWARM_CREATION_ERROR"),
         [.commandSent "start_swarm" swarmId]⟩
    | .ok _ =>
        ⟨{ s with activeSwarms :=
             (swarmId, { cfg with id := some swarmId }) :: deleteKey s.activeSwarms swarmId },
         .ok swarmId,
         [.commandSent "start_swarm" swarmId, .emitEvent "swarmCreated"]⟩

/-- `stopSwarm` without an id iterates over a snapshot of the registry
keys inside one `try` block (lines 400-407): each stop is sent in order
and the entry deleted on success, but the first failing send escapes the
loop, so later sessions are neither contacted nor removed. -/
def stopAllLoop (send : String → Except JsError String) :
    List String → List (String × SwarmConfig) →
    List (String × SwarmConfig) × List BridgeEffect × Option JsError
  | [], reg => (reg, [], none)
  | id :: rest, reg =>
    match send id with
    | .error e => (reg, [.commandSent "stop_swarm" id], some e)
    | .ok _ =>
        let r := stopAllLoop send rest (deleteKey reg id)
        (r.1, .commandSent "stop_swarm" id :: .emitEvent "swarmStopped" :: r.2.1, r.2.2)

/-- `stopSwarm` (lines 384-412).  With an id: unknown ids raise the
`SWARM_NOT_FOUND` error inside the `try`, which the `catch` re-wraps as a
`SWARM_STOP_ERROR`; known ids are stopped and removed.  Without an id the
snapshot loop `stopAllLoop` runs, and any escaped failure is re-wrapped
the same way. -/
def stopSwarm (s : BridgeState) (swarmId : Option String)
    (send : String → Except JsError String) : OpResult Unit :=
  if s.isInitialized = false then
    ⟨s, .error notInitializedError, []⟩
  else
    match swarmId with
    | some id =>
        if (lookupKey s.activeSwarms id).isNone then
          ⟨s, .error (.bridge ("Failed to stop swarm: Swarm not found: " ++ id)
               "SWARM_STOP_ERROR"), []⟩
        else
          match send id with
          | .error e =>
              ⟨s, .error (.bridge ("Failed to stop swarm: " ++ e.msg) "SWARM_STOP_ERROR"),
               [.commandSent "stop_swarm" id]⟩
          | .ok _ =>
              ⟨{ s with activeSwarms := deleteKey s.activeSwarms id }, .ok (),
               [.commandSent "stop_swarm" id, .emitEvent "swarmStopped"]⟩
    | none =>
        let r := stopAllLoop send (s.activeSwarms.map Prod.fst) s.activeSwarms
        match r.2.2 with
        | some e =>
            ⟨{ s with activeSwarms := r.1 },
             .error (.bridge ("Failed to stop swarm: " ++ e.msg) "SWARM_STOP_ERROR"),
             r.2.1⟩
        | none =>
            ⟨{ s with activeSwarms := r.1 }, .ok (), r.2.1⟩

/-- `optimizeSwarm` (lines 417-451): guard on initialization, then a local
registry check — an unknown id raises `SWARM_NOT_FOUND` inside the `try`,
re-wrapped by the `catch` as an `OPTIMIZATION_ERROR`, with no command
issued; a registered id sends `optimize_swarm` and returns the remote
result unmodified. -/
def optimizeSwarm (s : BridgeState) (swarmId : String)
    (send : Except JsError String) : OpResult String :=
  if s.isInitialized = false then
    ⟨s, .error notInitializedError, []⟩
  else if (lookupKey s.activeSwarms swarmId).isNone then
    ⟨s, .error (.bridge ("Optimization error: Swarm not found: " ++ swarmId)
         "OPTIMIZATION_ERROR"), []⟩
  else
    match send with
    | .ok v =>
        ⟨s, .ok v, [.commandSent "optimize_swarm" swarmId, .emitEvent "swarmOptimized"]⟩
    | .error e =>
        ⟨s, .error (.bridge ("Optimization error: " ++ e.msg) "OPTIMIZATION_ERROR"),
         [.commandSent "optimize_swarm" swarmId]⟩

/-- `getSwarmStatus` (lines 456-472): same guard and local registry check
as `optimizeSwarm`, wrapping failures as `STATUS_ERROR`. -/
def getSwarmStatus (s : BridgeState) (swarmId : String)
    (send : Except JsError String) : OpResult String :=
  if s.isInitialized = false then
    ⟨s, .error notInitializedError, []⟩
  else if (lookupKey s.activeSwarms swarmId).isNone then
    ⟨s, .error (.bridge ("Failed to get swarm status: Swarm not found: " ++ swarmId)
         "STATUS_ERROR"), []⟩
  else
    match send with
    | .ok v => ⟨s, .ok v, [.commandSent "get_swarm_status" swarmId]⟩
    | .error e =>
        ⟨s, .error (.bridge ("Failed to get swarm status: " ++ e.msg) "STATUS_ERROR"),
         [.commandSent "get_swarm_status" swarmId]⟩

/-- `executeCode` (lines 484-494): guard on initialization, then forward
the code through `execute_code`, wrapping failures as
`CODE_EXECUTION_ERROR`. -/
def executeCode (s : BridgeState) (code : String)
    (send : Except JsError String) : OpResult String :=
  if s.isInitialized = false then
    ⟨s, .error notInitializedError, []⟩
  else
    match send with
    | .ok v => ⟨s, .ok v, [.commandSent "execute_code" code]⟩
    | .error e =>
        ⟨s, .error (.bridge ("Code execution error: " ++ e.msg) "CODE_EXECUTION_ERROR"),
         [.commandSent "execute_code" code]⟩

/-- The rejection pass at the top of `shutdown()` (lines 318-323): each
pending command has its deadline timer cleared and its caller rejected
with the bridge-shutdown error. -/
def rejectAllPending : List String → List BridgeEffect
  | [] => []
  | id :: rest =>
      .clearTimeout id :: .rejectCommand id bridgeShutdownError :: rejectAllPending rest

/-- The per-session loop of `shutdown()` (lines 326-332): every session
in the snapshot gets a stop attempt; a failing stop is caught, logged and
the loop continues (`send` abstracts the whole `stopSwarm` round trip for
one id, including the eventual cleanup of its pending entry). -/
def shutdownStopLoop (send : String → Except JsError String) :
    List String → List (String × SwarmConfig) →
    List (String × SwarmConfig) × List BridgeEffect
  | [], reg => (reg, [])
  | id :: rest, reg =>
    match send id with
    | .ok _ =>
        let r := shutdownStopLoop send rest (deleteKey reg id)
        (r.1, .commandSent "stop_swarm" id :: .emitEvent "swarmStopped" :: r.2)
    | .error _ =>
        let r := shutdownStopLoop send rest reg
        (r.1,
         .commandSent "stop_swarm" id
           :: .logLine ("Failed to stop swarm " ++ id ++ " during shutdown") :: r.2)

/-- `shutdown` (lines 312-353): a no-op when not initialized; otherwise
rejects every pending command with the bridge-shutdown error, stops every
active session best-effort, clears the registry, asks the process to exit
and schedules a kill, and finally marks the bridge uninitialized. -/
def shutdown (s : BridgeState) (send : String → Except JsError String) :
    BridgeState × List BridgeEffect :=
  if s.isInitialized = false then
    (s, [])
  else
    let stops := shutdownStopLoop send (s.activeSwarms.map Prod.fst) s.activeSwarms
    ({ s with isInitialized := false, pendingCommands := [], activeSwarms := [] },
     rejectAllPending s.pendingCommands
       ++ stops.2
       ++ (if s.processRunning && s.stdinAvailable
             then [BridgeEffect.writeToProcess "exit()"] else [])
       ++ [BridgeEffect.killScheduled, BridgeEffect.emitEvent "shutdown"])

/-! ### Helper lemmas -/

theorem contains_false_not_mem {l : List String} {k : String}
    (h : l.contains k = false) : k ∉ l := by
  intro hm
  simp only [List.contains, List.elem_eq_true_of_mem hm] at h
  cases h

theorem filter_ne_of_not_contains {l : List String} {k : String}
    (h : l.contains k = false) : l.filter (fun x => x != k) = l := by
  apply List.filter_eq_self.mpr
  intro a ha
  have hne : a ≠ k := fun hak => contains_false_not_mem h (hak ▸ ha)
  simpa [bne_iff_ne]

theorem contains_filter_ne {l : List String} {k : String} :
    (l.filter (fun x => x != k)).contains k = false := by
  cases hc : (l.filter (fun x => x != k)).contains k with
  | false => rfl
  | true =>
    have h1 := List.mem_of_elem_eq_true hc
    have h2 := List.of_mem_filter h1
    simp [bne_iff_ne] at h2

/-- A connected, initialized bridge with empty tables, used to witness the
claims on concrete inputs. -/
def exampleConnectedState : BridgeState :=
  { isConnected := true
    retryCount := 0
    messageQueue := []
    reconnectTimerActive := false
    heartbeatTimerActive := false
    lastHeartbeat := 0
    isReconnecting := false
    processRunning := true
    stdinAvailable := true
    stdinWritable := true
    pendingRequests := []
    isInitialized := true
    pendingCommands := []
    activeSwarms := []
    reconnectAttempts := 0 }

/-! ### Claim theorems -/

/-- Path lemma for the `sendMessage`/`pendingRequests` correlator: a
request registered by `sendMessage` while connected is settled by the
response envelope whose id equals its generated id — resolved with the
envelope when it has no error field, rejected with that error otherwise,
the deadline timer cancelled and the entry removed either way.  In the
source this pair is reachable only from the queue flush (line 734):
facade commands go through `sendCommand`/`pendingCommands` instead, which
this handler never consults (see the claim C1 theorem below). -/
theorem response_settles_by_matching_id
    (o : JuliaBridgeOptions) (s : BridgeState) (requestId payload : String)
    (now later : Nat) (m : JuliaMessage)
    (hconn : s.isConnected = true)
    (hfresh : s.pendingRequests.contains requestId = false)
    (hid : m.id = requestId)
    (hkind : m.type ≠ "heartbeat") :
    (m.error = none →
      (handleWsMessage later ((sendMessage o now s requestId payload).1) m).2 =
        [.clearTimeout requestId, .resolveRequest requestId m, .emitEvent "message"])
    ∧ (∀ errText, m.error = some errText →
      (handleWsMessage later ((sendMessage o now s requestId payload).1) m).2 =
        [.clearTimeout requestId, .rejectRequest requestId (.plain errText),
         .emitEvent "message"])
    ∧ BridgeState.pendingRequests
        ((handleWsMessage later ((sendMessage o now s requestId payload).1) m).1) =
        s.pendingRequests := by
  have hsm : (sendMessage o now s requestId payload).1 =
      { s with pendingRequests := requestId :: s.pendingRequests } := by
    simp [sendMessage, hconn]
  have hmem : m.id ∈ requestId :: s.pendingRequests := by
    rw [hid]; exact List.mem_cons_self _ _
  have hnotmem := contains_false_not_mem hfresh
  refine ⟨?_, ?_, ?_⟩
  · intro herr
    rw [hsm]
    simp [handleWsMessage, hkind, hmem, herr, hid, List.filter_cons,
      filter_ne_of_not_contains hfresh]
  · intro errText herr
    rw [hsm]
    simp [handleWsMessage, hkind, hmem, herr, hid, List.filter_cons,
      filter_ne_of_not_contains hfresh]
  · rw [hsm]
    cases herr : m.error with
    | none =>
        simp [handleWsMessage, hkind, hmem, herr, hid, List.filter_cons,
          filter_ne_of_not_contains hfresh]
    | some errText =>
        simp [handleWsMessage, hkind, hmem, herr, hid, List.filter_cons,
          filter_ne_of_not_contains hfresh]

/-- The path lemma above at a concrete connected state, exercising the
error-free branch. -/
theorem response_settles_by_matching_id_witness :
    (handleWsMessage 5 ((sendMessage defaultOptions 1 exampleConnectedState "r1" "ping").1)
        ⟨"r1", "response", "42", none⟩).2 =
      [.clearTimeout "r1", .resolveRequest "r1" ⟨"r1", "response", "42", none⟩,
       .emitEvent "message"] :=
  (response_settles_by_matching_id defaultOptions exampleConnectedState "r1" "ping" 1 5
      ⟨"r1", "response", "42", none⟩ rfl rfl rfl (by decide)).1 rfl

/-- Claim C2: a command whose deadline elapses while still pending is
rejected with the COMMAND_TIMEOUT error and removed from the pending
table, and a response arriving afterwards for the same id is silently
discarded: it changes no state and settles no continuation, so timeout
and response are mutually exclusive and each id resolves at most once. -/
theorem timeout_and_response_mutually_exclusive
    (s : BridgeState) (commandId command : String) (now : Nat) (m : JuliaMessage)
    (hpend : s.pendingCommands.contains commandId = true)
    (hnoreq : s.pendingRequests.contains commandId = false)
    (hid : m.id = commandId)
    (hkind : m.type ≠ "heartbeat") :
    (fireCommandTimeout s commandId command).2 =
        [.rejectCommand commandId
           (.bridge ("Command timed out: " ++ command) "COMMAND_TIMEOUT")]
    ∧ ((fireCommandTimeout s commandId command).1).pendingCommands.contains commandId
        = false
    ∧ handleWsMessage now ((fireCommandTimeout s commandId command).1) m =
        ((fireCommandTimeout s commandId command).1, [.emitEvent "message"]) := by
  have hmem := List.mem_of_elem_eq_true hpend
  have hnotmem := contains_false_not_mem hnoreq
  have hfire : fireCommandTimeout s commandId command =
      ({ s with pendingCommands := s.pendingCommands.filter (fun x => x != commandId) },
       [.rejectCommand commandId
          (.bridge ("Command timed out: " ++ command) "COMMAND_TIMEOUT")]) := by
    simp [fireCommandTimeout, hmem]
  refine ⟨by rw [hfire], ?_, ?_⟩
  · rw [hfire]
    exact contains_filter_ne
  · rw [hfire]
    simp [handleWsMessage, hkind, hid, hnotmem]

/-- Witness for C2 at a concrete state with one pending command. -/
theorem timeout_and_response_mutually_exclusive_witness :
    (fireCommandTimeout { exampleConnectedState with pendingCommands := ["c1"] }
        "c1" "execute_code").2 =
      [.rejectCommand "c1"
         (.bridge ("Command timed out: " ++ "execute_code") "COMMAND_TIMEOUT")]
    ∧ ((fireCommandTimeout { exampleConnectedState with pendingCommands := ["c1"] }
        "c1" "execute_code").1).pendingCommands.contains "c1" = false
    ∧ handleWsMessage 9
        ((fireCommandTimeout { exampleConnectedState with pendingCommands := ["c1"] }
            "c1" "execute_code").1)
        ⟨"c1", "response", "late", none⟩ =
      ((fireCommandTimeout { exampleConnectedState with pendingCommands := ["c1"] }
          "c1" "execute_code").1, [.emitEvent "message"]) :=
  timeout_and_response_mutually_exclusive
    { exampleConnectedState with pendingCommands := ["c1"] } "c1" "execute_code" 9
    ⟨"c1", "response", "late", none⟩ rfl rfl rfl (by decide)

theorem mem_rejectAllPending {l : List String} {id : String} (h : id ∈ l) :
    BridgeEffect.rejectCommand id bridgeShutdownError ∈ rejectAllPending l := by
  induction l with
  | nil => cases h
  | cons a t ih =>
    rw [rejectAllPending]
    rcases List.mem_cons.mp h with rfl | hmem
    · exact List.mem_cons_of_mem _ (List.mem_cons_self _ _)
    · exact List.mem_cons_of_mem _ (List.mem_cons_of_mem _ (ih hmem))

theorem shutdownStopLoop_attempts (send : String → Except JsError String) :
    ∀ (ids : List String) (reg : List (String × SwarmConfig)) (id : String),
      id ∈ ids →
      BridgeEffect.commandSent "stop_swarm" id ∈ (shutdownStopLoop send ids reg).2 := by
  intro ids
  induction ids with
  | nil => intro reg id h; cases h
  | cons a t ih =>
    intro reg id h
    rcases List.mem_cons.mp h with rfl | hmem
    · cases hsend : send id with
      | ok v => rw [shutdownStopLoop, hsend]; exact List.mem_cons_self _ _
      | error e => rw [shutdownStopLoop, hsend]; exact List.mem_cons_self _ _
    · cases hsend : send a with
      | ok v =>
          rw [shutdownStopLoop, hsend]
          exact List.mem_cons_of_mem _ (List.mem_cons_of_mem _ (ih _ id hmem))
      | error e =>
          rw [shutdownStopLoop, hsend]
          exact List.mem_cons_of_mem _ (List.mem_cons_of_mem _ (ih _ id hmem))

theorem shutdownStopLoop_logs (send : String → Except JsError String) :
    ∀ (ids : List String) (reg : List (String × SwarmConfig)) (id : String)
      (e : JsError), id ∈ ids → send id = .error e →
      BridgeEffect.logLine ("Failed to stop swarm " ++ id ++ " during shutdown")
        ∈ (shutdownStopLoop send ids reg).2 := by
  intro ids
  induction ids with
  | nil => intro reg id e h; cases h
  | cons a t ih =>
    intro reg id e h hsend
    rcases List.mem_cons.mp h with rfl | hmem
    · rw [shutdownStopLoop, hsend]
      exact List.mem_cons_of_mem _ (List.mem_cons_self _ _)
    · cases hsenda : send a with
      | ok v =>
          rw [shutdownStopLoop, hsenda]
          exact List.mem_cons_of_mem _ (List.mem_cons_of_mem _ (ih _ id e hmem hsend))
      | error e2 =>
          rw [shutdownStopLoop, hsenda]
          exact List.mem_cons_of_mem _ (List.mem_cons_of_mem _ (ih _ id e hmem hsend))

/-- Claim C3: `shutdown()` on an initialized bridge fails every pending
request with the bridge-shutdown error, attempts to stop every active
session (logging and continuing past individual failures), clears the
session registry and the pending table, and terminates the external
process; `shutdown()` on an uninitialized bridge is a no-op, as is the
guard of `initialize()` on an already initialized bridge. -/
theorem shutdown_cleans_up_and_is_idempotent
    (s : BridgeState) (send : String → Except JsError String)
    (hinit : s.isInitialized = true) :
    (shutdown s send).1.isInitialized = false
    ∧ (shutdown s send).1.pendingCommands = []
    ∧ (shutdown s send).1.activeSwarms = []
    ∧ (∀ id ∈ s.pendingCommands,
        BridgeEffect.rejectCommand id bridgeShutdownError ∈ (shutdown s send).2)
    ∧ (∀ p ∈ s.activeSwarms,
        BridgeEffect.commandSent "stop_swarm" p.1 ∈ (shutdown s send).2)
    ∧ (∀ p ∈ s.activeSwarms, ∀ e, send p.1 = .error e →
        BridgeEffect.logLine ("Failed to stop swarm " ++ p.1 ++ " during shutdown")
          ∈ (shutdown s send).2)
    ∧ BridgeEffect.killScheduled ∈ (shutdown s send).2
    ∧ (∀ t : BridgeState, t.isInitialized = false → shutdown t send = (t, []))
    ∧ (∀ t : BridgeState, t.isInitialized = true → initGuard t = some t) := by
  have hsh : shutdown s send =
      ({ s with isInitialized := false, pendingCommands := [], activeSwarms := [] },
       rejectAllPending s.pendingCommands
         ++ ((shutdownStopLoop send (s.activeSwarms.map Prod.fst) s.activeSwarms).2
         ++ ((if s.processRunning && s.stdinAvailable
               then [BridgeEffect.writeToProcess "exit()"] else [])
         ++ [BridgeEffect.killScheduled, BridgeEffect.emitEvent "shutdown"]))) := by
    simp [shutdown, hinit]
  refine ⟨by rw [hsh], by rw [hsh], by rw [hsh], ?_, ?_, ?_, ?_, ?_, ?_⟩
  · intro id h
    rw [hsh]
    exact List.mem_append_left _ (mem_rejectAllPending h)
  · intro p hp
    rw [hsh]
    refine List.mem_append_right _ (List.mem_append_left _ ?_)
    exact shutdownStopLoop_attempts send _ _ _ (List.mem_map_of_mem Prod.fst hp)
  · intro p hp e hsend
    rw [hsh]
    refine List.mem_append_right _ (List.mem_append_left _ ?_)
    exact shutdownStopLoop_logs send _ _ _ _ (List.mem_map_of_mem Prod.fst hp) hsend
  · rw [hsh]
    refine List.mem_append_right _ (List.mem_append_right _ (List.mem_append_right _ ?_))
    exact List.mem_cons_self _ _
  · intro t ht
    simp [shutdown, ht]
  · intro t ht
    simp [initGuard, ht]

/-- Fixed example data used by the concrete witnesses. -/
def exampleParams : SwarmParameters :=
  { maxPositionSize := 1, stopLoss := 1, takeProfit := 1, maxDrawdown := 1 }

def cfgA : SwarmConfig :=
  { id := some "a", name := none, size := 3, algorithm := .pso,
    parameters := exampleParams }

def cfgB : SwarmConfig :=
  { id := some "b", name := none, size := 4, algorithm := .aco,
    parameters := exampleParams }

/-- A send outcome that always fails (the remote stop erroring out). -/
def failingSend (id : String) : Except JsError String :=
  .error (.plain ("stop failed for " ++ id))

/-- A bridge with one pending command and one active session, used by the
C3 witness. -/
def shutdownWitnessState : BridgeState :=
  { exampleConnectedState with pendingCommands := ["p1"], activeSwarms := [("a", cfgA)] }

/-- Witness for C3: one pending command plus one active session whose stop
fails. -/
theorem shutdown_cleans_up_and_is_idempotent_witness :
    BridgeState.isInitialized ((shutdown shutdownWitnessState failingSend).1) = false
    ∧ BridgeEffect.rejectCommand "p1" bridgeShutdownError ∈
        (shutdown shutdownWitnessState failingSend).2
    ∧ BridgeEffect.commandSent "stop_swarm" "a" ∈
        (shutdown shutdownWitnessState failingSend).2 :=
  ⟨(shutdown_cleans_up_and_is_idempotent shutdownWitnessState failingSend rfl).1,
   (shutdown_cleans_up_and_is_idempotent shutdownWitnessState failingSend rfl).2.2.2.1
     "p1" (by simp [shutdownWitnessState]),
   (shutdown_cleans_up_and_is_idempotent shutdownWitnessState failingSend rfl).2.2.2.2.1
     ("a", cfgA) (by simp [shutdownWitnessState])⟩

/-- The `code` property of the error carried by a failed result (`none`
for a success or a plain `Error`, which has no code). -/
def resultErrorCode {α : Type} : Except JsError α → Option String
  | .error (.bridge _ c) => some c
  | .error (.plain _) => none
  | .ok _ => none

/-- Counterexample to claim C4 as stated: `optimizeSwarm` on an id that
was never registered does fail locally, but the `SWARM_NOT_FOUND` error
raised inside the `try` is re-wrapped by the `catch`, so the error the
caller observes carries the code `OPTIMIZATION_ERROR`, not the
session-not-found code the claim names. -/
theorem optimize_unknown_id_code_counterexample :
    resultErrorCode (optimizeSwarm exampleConnectedState "ghost" (.ok "r")).result =
      some "OPTIMIZATION_ERROR"
    ∧ resultErrorCode (optimizeSwarm exampleConnectedState "ghost" (.ok "r")).result ≠
      some "SWARM_NOT_FOUND" := by
  exact ⟨rfl, by decide⟩

/-- Claim C4 (amended): for an id that is not Active locally,
`optimizeSwarm` fails before any command is handed to the transport — no
network round trip occurs and the state is untouched — with an error
whose message wraps the session-not-found text but whose code is
`OPTIMIZATION_ERROR`; for an Active id it issues the optimize command and
returns the remote result unmodified. -/
theorem optimize_unknown_id_fails_locally
    (s : BridgeState) (swarmId : String) (send : Except JsError String)
    (hinit : s.isInitialized = true) :
    (lookupKey s.activeSwarms swarmId = none →
      (optimizeSwarm s swarmId send).result =
        .error (.bridge ("Optimization error: Swarm not found: " ++ swarmId)
          "OPTIMIZATION_ERROR")
      ∧ (optimizeSwarm s swarmId send).effects = []
      ∧ (optimizeSwarm s swarmId send).state = s)
    ∧ (∀ cfg v, lookupKey s.activeSwarms swarmId = some cfg → send = .ok v →
      (optimizeSwarm s swarmId send).result = .ok v
      ∧ (optimizeSwarm s swarmId send).effects =
          [.commandSent "optimize_swarm" swarmId, .emitEvent "swarmOptimized"]
      ∧ (optimizeSwarm s swarmId send).state = s) := by
  constructor
  · intro habs
    refine ⟨?_, ?_, ?_⟩ <;> simp [optimizeSwarm, hinit, habs]
  · intro cfg v hfound hsend
    refine ⟨?_, ?_, ?_⟩ <;> simp [optimizeSwarm, hinit, hfound, hsend]

/-- Witness for the amended C4: unknown id on a registry-empty bridge. -/
theorem optimize_unknown_id_fails_locally_witness :
    (optimizeSwarm exampleConnectedState "ghost" (.ok "r")).result =
      .error (.bridge ("Optimization error: Swarm not found: " ++ "ghost")
        "OPTIMIZATION_ERROR")
    ∧ (optimizeSwarm exampleConnectedState "ghost" (.ok "r")).effects = []
    ∧ (optimizeSwarm exampleConnectedState "ghost" (.ok "r")).state =
        exampleConnectedState :=
  (optimize_unknown_id_fails_locally exampleConnectedState "ghost" (.ok "r") rfl).1 rfl

/-- An uninitialized bridge with otherwise healthy fields, used by the
C10 witness. -/
def exampleUninitState : BridgeState :=
  { exampleConnectedState with isInitialized := false }

/-- Claim C10: every public command operation invoked while the bridge is
not initialized fails immediately with the not-initialized error, leaving
the state (session registry, pending tables) unchanged and issuing no
command; `sendCommand` itself throws the same way before touching its
table. -/
theorem ops_require_initialization
    (s : BridgeState) (h : s.isInitialized = false) :
    (∀ cfg genId send, createSwarm s cfg genId send =
        ⟨s, .error notInitializedError, []⟩)
    ∧ (∀ swarmId send, stopSwarm s swarmId send =
        ⟨s, .error notInitializedError, []⟩)
    ∧ (∀ swarmId send, optimizeSwarm s swarmId send =
        ⟨s, .error notInitializedError, []⟩)
    ∧ (∀ swarmId send, getSwarmStatus s swarmId send =
        ⟨s, .error notInitializedError, []⟩)
    ∧ (∀ code send, executeCode s code send =
        ⟨s, .error notInitializedError, []⟩)
    ∧ (∀ commandId command len we, sendCommand s commandId command len we =
        ⟨s, .thrown (.bridge "Julia bridge is not initialized or process not running"
            "NOT_INITIALIZED"), []⟩) := by
  refine ⟨?_, ?_, ?_, ?_, ?_, ?_⟩
  · intro cfg genId send; simp [createSwarm, h]
  · intro swarmId send; simp [stopSwarm, h]
  · intro swarmId send; simp [optimizeSwarm, h]
  · intro swarmId send; simp [getSwarmStatus, h]
  · intro code send; simp [executeCode, h]
  · intro commandId command len we; simp [sendCommand, h]

/-- Witness for C10 at a concrete uninitialized bridge. -/
theorem ops_require_initialization_witness :
    createSwarm exampleUninitState cfgA "g1" (.ok "x") =
      ⟨exampleUninitState, .error notInitializedError, []⟩
    ∧ optimizeSwarm exampleUninitState "a" (.ok "x") =
      ⟨exampleUninitState, .error notInitializedError, []⟩
    ∧ executeCode exampleUninitState "1+1" (.ok "2") =
      ⟨exampleUninitState, .error notInitializedError, []⟩ :=
  ⟨(ops_require_initialization exampleUninitState rfl).1 cfgA "g1" (.ok "x"),
   (ops_require_initialization exampleUninitState rfl).2.2.1 "a" (.ok "x"),
   (ops_require_initialization exampleUninitState rfl).2.2.2.2.1 "1+1" (.ok "2")⟩

theorem scheduleReconnect_keeps_retryCount (o : JuliaBridgeOptions) (s : BridgeState) :
    ((scheduleReconnect o s).1).retryCount = s.retryCount := by
  unfold scheduleReconnect
  split <;> rfl

theorem scheduleReconnect_keeps_isConnected (o : JuliaBridgeOptions) (s : BridgeState) :
    ((scheduleReconnect o s).1).isConnected = s.isConnected := by
  unfold scheduleReconnect
  split <;> rfl

theorem scheduleReconnect_keeps_heartbeatTimer (o : JuliaBridgeOptions) (s : BridgeState) :
    ((scheduleReconnect o s).1).heartbeatTimerActive = s.heartbeatTimerActive := by
  unfold scheduleReconnect
  split <;> rfl

theorem handleDisconnect_keeps_retryCount (o : JuliaBridgeOptions) (s : BridgeState) :
    ((handleDisconnect o s).1).retryCount = s.retryCount := by
  unfold handleDisconnect
  split
  · rfl
  · exact scheduleReconnect_keeps_retryCount o _

theorem handleDisconnect_keeps_heartbeatTimer (o : JuliaBridgeOptions) (s : BridgeState) :
    ((handleDisconnect o s).1).heartbeatTimerActive = s.heartbeatTimerActive := by
  unfold handleDisconnect
  split
  · rfl
  · exact scheduleReconnect_keeps_heartbeatTimer o _

theorem handleDisconnect_disconnects (o : JuliaBridgeOptions) (s : BridgeState)
    (hc : s.isConnected = true) :
    ((handleDisconnect o s).1).isConnected = false := by
  simp [handleDisconnect, hc, scheduleReconnect_keeps_isConnected]

theorem sendHeartbeat_keeps_retryCount (o : JuliaBridgeOptions) (s : BridgeState)
    (b : Bool) : ((sendHeartbeat o s b).1).retryCount = s.retryCount := by
  unfold sendHeartbeat
  split
  · rfl
  · split
    · exact handleDisconnect_keeps_retryCount o s
    · rfl

theorem sendHeartbeat_keeps_heartbeatTimer (o : JuliaBridgeOptions) (s : BridgeState)
    (b : Bool) :
    ((sendHeartbeat o s b).1).heartbeatTimerActive = s.heartbeatTimerActive := by
  unfold sendHeartbeat
  split
  · rfl
  · split
    · exact handleDisconnect_keeps_heartbeatTimer o s
    · rfl

theorem startHeartbeat_keeps_retryCount (o : JuliaBridgeOptions) (s : BridgeState)
    (b : Bool) : ((startHeartbeat o s b).1).retryCount = s.retryCount := by
  unfold startHeartbeat
  exact sendHeartbeat_keeps_retryCount o _ b

/-- Claim C5: each retry path schedules its next attempt after
base × multiplier ^ n where n is the current value of its retry counter,
and the counter is reset to zero by the success path of its cycle.  The
WebSocket path uses the configured `reconnectInterval` and
`backoffMultiplier` and resets `retryCount` on the open event; the
process-level path uses its fixed base 1000 ms and multiplier 2 and
resets `reconnectAttempts` when initialization succeeds. -/
theorem backoff_delay_formula_and_reset
    (o : JuliaBridgeOptions) (s : BridgeState) (now : Nat) (sendFails : Bool)
    (h1 : s.isReconnecting = false) (h2 : s.reconnectTimerActive = false) :
    (scheduleReconnect o s).2 =
      some (((orDefaultNat o.reconnectInterval 5000 : Nat) : Rat) *
        orDefaultRat o.backoffMultiplier (3 / 2) ^ s.retryCount)
    ∧ ((handleOpen o now s sendFails).1).retryCount = 0
    ∧ (s.reconnectAttempts < 5 →
        (handleReconnect s).2 = some (1000 * 2 ^ s.reconnectAttempts)
        ∧ ((handleReconnect s).1).reconnectAttempts = s.reconnectAttempts + 1)
    ∧ (markInitialized s).reconnectAttempts = 0 := by
  refine ⟨?_, ?_, ?_, ?_⟩
  · simp [scheduleReconnect, h1, h2, calculateBackoffDelay]
  · unfold handleOpen
    simp [startHeartbeat_keeps_retryCount]
  · intro hlt
    constructor <;> simp [handleReconnect, hlt]
  · rfl

/-- A bridge mid-backoff, used by the C5 witness. -/
def backoffWitnessState : BridgeState :=
  { exampleConnectedState with retryCount := 2, reconnectAttempts := 3 }

/-- Witness for C5 at retry count 2 under the default configuration:
the scheduled delay is 5000 × 1.5², and both counters reset. -/
theorem backoff_delay_formula_and_reset_witness :
    (scheduleReconnect defaultOptions backoffWitnessState).2 =
      some (((orDefaultNat defaultOptions.reconnectInterval 5000 : Nat) : Rat) *
        orDefaultRat defaultOptions.backoffMultiplier (3 / 2) ^ 2)
    ∧ ((handleOpen defaultOptions 0 backoffWitnessState false).1).retryCount = 0
    ∧ (markInitialized backoffWitnessState).reconnectAttempts = 0 :=
  ⟨(backoff_delay_formula_and_reset defaultOptions backoffWitnessState 0 false
      rfl rfl).1,
   (backoff_delay_formula_and_reset defaultOptions backoffWitnessState 0 false
      rfl rfl).2.1,
   (backoff_delay_formula_and_reset defaultOptions backoffWitnessState 0 false
      rfl rfl).2.2.2⟩

theorem deleteKeys_all_keys {α : Type} :
    ∀ (ks : List String) (l : List (String × α)),
      (∀ p ∈ l, p.1 ∈ ks) → deleteKeys l ks = [] := by
  intro ks
  induction ks with
  | nil =>
    intro l h
    cases l with
    | nil => rfl
    | cons p t => cases h p (List.mem_cons_self p t)
  | cons k kt ih =>
    intro l h
    rw [deleteKeys]
    apply ih
    intro p hp
    have hpl : p ∈ l := List.mem_of_mem_filter hp
    have hne : p.1 ≠ k := by
      have := List.of_mem_filter hp
      simpa [bne_iff_ne] using this
    rcases List.mem_cons.mp (h p hpl) with h1 | h2
    · exact absurd h1 hne
    · exact h2

theorem stopAllLoop_all_ok (send : String → Except JsError String) :
    ∀ (ids : List String) (reg : List (String × SwarmConfig)),
      (∀ id ∈ ids, ∃ v, send id = .ok v) →
      (stopAllLoop send ids reg).1 = deleteKeys reg ids
      ∧ (stopAllLoop send ids reg).2.2 = none := by
  intro ids
  induction ids with
  | nil => intro reg _; exact ⟨rfl, rfl⟩
  | cons a t ih =>
    intro reg h
    obtain ⟨v, hv⟩ := h a (List.mem_cons_self a t)
    have hrest : ∀ id ∈ t, ∃ w, send id = .ok w :=
      fun id hid => h id (List.mem_cons_of_mem a hid)
    rw [stopAllLoop, hv]
    exact ⟨(ih _ hrest).1, (ih _ hrest).2⟩

/-- Two active sessions, used by the C6 counterexample and witness. -/
def stopAllState : BridgeState :=
  { exampleConnectedState with activeSwarms := [("a", cfgA), ("b", cfgB)] }

/-- A send outcome that fails for session "a" and succeeds otherwise. -/
def failFirstSend (id : String) : Except JsError String :=
  if id = "a" then .error (.plain "boom") else .ok "ok"

/-- A send outcome that always succeeds. -/
def okSend (_id : String) : Except JsError String := .ok "stopped"

/-- Counterexample to claim C6 as stated: with sessions "a" and "b" both
Active and the stop of "a" failing, `stopSwarm` with no id aborts inside
its single try block — session "b" is never contacted, nothing is removed,
and the registry still holds both sessions, contradicting both the
continue-past-failures behaviour and the claim that the registry ends up
with no Active sessions. -/
theorem stop_all_aborts_on_first_failure_counterexample :
    (stopSwarm stopAllState none failFirstSend).state.activeSwarms =
      [("a", cfgA), ("b", cfgB)]
    ∧ (stopSwarm stopAllState none failFirstSend).state.activeSwarms ≠ []
    ∧ BridgeEffect.commandSent "stop_swarm" "b" ∉
        (stopSwarm stopAllState none failFirstSend).effects := by
  refine ⟨rfl, by decide, by decide⟩

/-- Claim C6 (amended): `stopSwarm` with no id attempts to stop the Active
sessions in registration order but aborts at the first per-session
failure, wrapping it as a SWARM_STOP_ERROR; the failing session and all
later ones stay Active; only when every stop succeeds is the registry left
with no Active sessions.  With an id that is not registered it fails with
a SWARM_STOP_ERROR wrapping the session-not-found message, contacting
nothing. -/
theorem stop_all_order_and_wrapping
    (s : BridgeState) (send : String → Except JsError String)
    (hinit : s.isInitialized = true) :
    (∀ id, lookupKey s.activeSwarms id = none →
      (stopSwarm s (some id) send).result =
          .error (.bridge ("Failed to stop swarm: Swarm not found: " ++ id)
            "SWARM_STOP_ERROR")
      ∧ (stopSwarm s (some id) send).effects = []
      ∧ (stopSwarm s (some id) send).state = s)
    ∧ ((∀ id ∈ s.activeSwarms.map Prod.fst, ∃ v, send id = .ok v) →
      (stopSwarm s none send).state.activeSwarms = []
      ∧ (stopSwarm s none send).result = .ok ())
    ∧ (∀ k c rest e, s.activeSwarms = (k, c) :: rest → send k = .error e →
      (stopSwarm s none send).result =
          .error (.bridge ("Failed to stop swarm: " ++ e.msg) "SWARM_STOP_ERROR")
      ∧ (stopSwarm s none send).state.activeSwarms = (k, c) :: rest
      ∧ (stopSwarm s none send).effects = [.commandSent "stop_swarm" k]) := by
  refine ⟨?_, ?_, ?_⟩
  · intro id habs
    refine ⟨?_, ?_, ?_⟩ <;> simp [stopSwarm, hinit, habs]
  · intro hall
    have hloop := stopAllLoop_all_ok send (s.activeSwarms.map Prod.fst)
      s.activeSwarms hall
    have hreg : (stopAllLoop send (s.activeSwarms.map Prod.fst) s.activeSwarms).1
        = [] := by
      rw [hloop.1]
      exact deleteKeys_all_keys _ _ (fun p hp => List.mem_map_of_mem Prod.fst hp)
    constructor <;> simp [stopSwarm, hinit, hloop.2, hreg]
  · intro k c rest e hs hk
    have hmap : s.activeSwarms.map Prod.fst = k :: rest.map Prod.fst := by
      rw [hs]; rfl
    have hloop : stopAllLoop send (k :: rest.map Prod.fst) ((k, c) :: rest) =
        ((k, c) :: rest, [.commandSent "stop_swarm" k], some e) := by
      rw [stopAllLoop, hk]
    refine ⟨?_, ?_, ?_⟩ <;> simp [stopSwarm, hinit, hs, hmap, hloop]

/-- Witness for the amended C6: both stops succeed and the registry is
emptied. -/
theorem stop_all_order_and_wrapping_witness :
    (stopSwarm stopAllState none okSend).state.activeSwarms = []
    ∧ (stopSwarm stopAllState none okSend).result = .ok () :=
  (stop_all_order_and_wrapping stopAllState okSend rfl).2.1
    (fun _ _ => ⟨"stopped", rfl⟩)

/-- A connected bridge with an active heartbeat timer, used by the C7
counterexample and witness. -/
def heartbeatState : BridgeState :=
  { exampleConnectedState with heartbeatTimerActive := true }

/-- Counterexample to claim C7 as stated: at a concrete connected state
with an active heartbeat timer, the disconnect handler takes the bridge
out of the Connected state but leaves the heartbeat timer running — the
monitor is not stopped when the connection leaves Connected. -/
theorem heartbeat_timer_survives_disconnect_counterexample :
    ¬ (∀ (o : JuliaBridgeOptions) (s : BridgeState), s.isConnected = true →
        ((handleDisconnect o s).1).isConnected = false →
        ((handleDisconnect o s).1).heartbeatTimerActive = false) := by
  intro hclaim
  have h2 := hclaim defaultOptions heartbeatState rfl rfl
  exact absurd h2 (by decide)

/-- Claim C7 (amended): the monitor only sends heartbeats and records the
last-seen time — receipt of a heartbeat-kind message updates
`lastHeartbeat` and triggers nothing else, and no staleness check against
the configured timeout exists; the single stale-transport reaction is that
a failing heartbeat send forces the disconnect-and-reconnect cycle.  The
heartbeat timer is not cancelled when the connection leaves Connected; it
is only replaced when a new heartbeat cycle starts. -/
theorem heartbeat_records_only_and_timer_survives
    (o : JuliaBridgeOptions) (s : BridgeState) (now : Nat) :
    handleHeartbeat now s = { s with lastHeartbeat := now }
    ∧ ((handleDisconnect o s).1).heartbeatTimerActive = s.heartbeatTimerActive
    ∧ (s.isConnected = true →
        ((sendHeartbeat o s true).1).isConnected = false
        ∧ ((sendHeartbeat o s true).1).heartbeatTimerActive = s.heartbeatTimerActive)
    ∧ ((startHeartbeat o s false).1).heartbeatTimerActive = true := by
  refine ⟨rfl, handleDisconnect_keeps_heartbeatTimer o s, ?_, ?_⟩
  · intro hc
    constructor
    · simp [sendHeartbeat, hc, handleDisconnect_disconnects o s hc]
    · exact sendHeartbeat_keeps_heartbeatTimer o s true
  · unfold startHeartbeat
    simp [sendHeartbeat_keeps_heartbeatTimer]

/-- Witness for the amended C7 at a concrete connected state: a failing
heartbeat send disconnects, yet the timer flag survives the disconnect
handler. -/
theorem heartbeat_records_only_and_timer_survives_witness :
    handleHeartbeat 7 heartbeatState = { heartbeatState with lastHeartbeat := 7 }
    ∧ ((handleDisconnect defaultOptions heartbeatState).1).heartbeatTimerActive =
        heartbeatState.heartbeatTimerActive
    ∧ ((sendHeartbeat defaultOptions heartbeatState true).1).isConnected = false :=
  ⟨(heartbeat_records_only_and_timer_survives defaultOptions heartbeatState 7).1,
   (heartbeat_records_only_and_timer_survives defaultOptions heartbeatState 7).2.1,
   ((heartbeat_records_only_and_timer_survives defaultOptions heartbeatState 7).2.2.1
      rfl).1⟩

/-- Claim C8: at flush time every queued command strictly older than the
maximum queue age is failed with the message-expired error and never
resent, while the surviving entries are resent in their original enqueue
order (the kept list is a sublist of the queue) and the queue is left
empty. -/
theorem queue_flush_expires_and_preserves_order
    (o : JuliaBridgeOptions) (now : Nat) (q : List QueuedMessage) :
    (processQueuedMessages o now q).1 = []
    ∧ (processQueuedMessages o now q).2 =
        (q.filter (fun it => queueExpired o now it)).map
            (fun it => BridgeEffect.rejectQueued it.message messageExpiredError)
          ++ (q.filter (fun it => !queueExpired o now it)).map
            (fun it => BridgeEffect.resendQueued it.message)
    ∧ List.Sublist (q.filter (fun it => !queueExpired o now it)) q
    ∧ (∀ it ∈ q, queueExpired o now it = true →
        it ∉ q.filter (fun it2 => !queueExpired o now it2)) := by
  refine ⟨rfl, rfl, List.filter_sublist _, ?_⟩
  intro it hit hexp hmem
  have hkeep := List.of_mem_filter hmem
  rw [hexp] at hkeep
  cases hkeep

/-- A queue holding one stale and one fresh entry, used by the C8
witness. -/
def exampleQueue : List QueuedMessage := [⟨"old", 0⟩, ⟨"fresh", 50000⟩]

/-- Witness for C8 at time 60000 under the default 30000 ms limit: the
entry from time 0 is rejected as expired and only the fresh entry is
resent. -/
theorem queue_flush_expires_and_preserves_order_witness :
    (processQueuedMessages defaultOptions 60000 exampleQueue).1 = []
    ∧ (processQueuedMessages defaultOptions 60000 exampleQueue).2 =
        [.rejectQueued "old" messageExpiredError, .resendQueued "fresh"] :=
  ⟨(queue_flush_expires_and_preserves_order defaultOptions 60000 exampleQueue).1,
   by
    rw [(queue_flush_expires_and_preserves_order defaultOptions 60000 exampleQueue).2.1]
    rfl⟩

/-- Claim C9: an outbound command whose serialized size exceeds the
10 MiB ceiling is rejected locally with the data-too-large error before
anything is written to the process; the provisional pending entry is
removed and its deadline timer cancelled, leaving the pending-command
table — indeed the whole state — unchanged. -/
theorem oversized_command_rejected_locally
    (s : BridgeState) (commandId command : String) (len : Nat)
    (hinit : s.isInitialized = true) (hproc : s.processRunning = true)
    (hstdin : s.stdinAvailable = true)
    (hfresh : s.pendingCommands.contains commandId = false)
    (hlen : 10 * 1024 * 1024 < len) :
    (sendCommand s commandId command len none).outcome = .rejected dataTooLargeError
    ∧ (sendCommand s commandId command len none).state = s
    ∧ (sendCommand s commandId command len none).effects =
        [.startTimeout commandId, .clearTimeout commandId]
    ∧ (∀ p, BridgeEffect.writeToProcess p ∉
        (sendCommand s commandId command len none).effects) := by
  have hsc : sendCommand s commandId command len none =
      ⟨{ s with pendingCommands :=
           (commandId :: s.pendingCommands).filter (fun x => x != commandId) },
       .rejected dataTooLargeError,
       [.startTimeout commandId, .clearTimeout commandId]⟩ := by
    simp [sendCommand, hinit, hproc, hstdin, hlen]
  have hfilterPending :
      (commandId :: s.pendingCommands).filter (fun x => x != commandId) =
        s.pendingCommands := by
    simp [List.filter_cons, filter_ne_of_not_contains hfresh]
  refine ⟨by rw [hsc], ?_, by rw [hsc], ?_⟩
  · rw [hsc]
    simp only [hfilterPending]
  · intro p hp
    rw [hsc] at hp
    simp at hp

/-- Witness for C9: a 10 MiB + 1 byte command on a healthy bridge. -/
theorem oversized_command_rejected_locally_witness :
    (sendCommand exampleConnectedState "c9" "optimize_swarm"
        (10 * 1024 * 1024 + 1) none).outcome = .rejected dataTooLargeError
    ∧ (sendCommand exampleConnectedState "c9" "optimize_swarm"
        (10 * 1024 * 1024 + 1) none).state = exampleConnectedState :=
  ⟨(oversized_command_rejected_locally exampleConnectedState "c9" "optimize_swarm"
      (10 * 1024 * 1024 + 1) rfl rfl rfl rfl (by norm_num)).1,
   (oversized_command_rejected_locally exampleConnectedState "c9" "optimize_swarm"
      (10 * 1024 * 1024 + 1) rfl rfl rfl rfl (by norm_num)).2.1⟩

/-- The state after `sendCommand` issues `start_swarm` under the
generated id "c1" on a connected, initialized bridge: the failing input
for claim C1. -/
def c1BugState : BridgeState :=
  (sendCommand exampleConnectedState "c1" "start_swarm" 100 none).state

/-- The response envelope answering that command: matching id, response
kind, no error field. -/
def c1BugResponse : JuliaMessage := ⟨"c1", "response", "ok", none⟩

/-- Claim C1, evaluated at the failing input: a facade command issued
through `sendCommand` on a connected, initialized bridge registers its
continuation under its generated id in `pendingCommands` and writes the
frame, but the response envelope with exactly that id and no error field
settles nothing — the ws message handler consults only `pendingRequests`
(populated solely by `sendMessage`, whose one call site is the queue
flush), so it produces no resolve or reject effect, leaves the state
unchanged, and the command is still pending afterwards.  The claimed
resolution of the continuation by the matching response never happens on
the command path; the command can only fail later with COMMAND_TIMEOUT. -/
theorem command_response_never_settled_bug :
    (sendCommand exampleConnectedState "c1" "start_swarm" 100 none).outcome =
      SendOutcome.pending
    ∧ (sendCommand exampleConnectedState "c1" "start_swarm" 100 none).effects =
      [BridgeEffect.startTimeout "c1", BridgeEffect.writeToProcess "start_swarm"]
    ∧ c1BugState.pendingCommands.contains "c1" = true
    ∧ handleWsMessage 9 c1BugState c1BugResponse =
        (c1BugState, [BridgeEffect.emitEvent "message"])
    ∧ (BridgeState.pendingCommands
        ((handleWsMessage 9 c1BugState c1BugResponse).1)).contains "c1" = true :=
  ⟨rfl, rfl, rfl, rfl, rfl⟩
